import Mathlib

/-
Verification development for blog-check-template.py (DNS propagation and
connectivity audit script, v4.4).

The script is a linear pipeline of checks over external tools (dig, ping,
curl).  We embed it shallowly:

  * `Env` packages the external world: presence of tools and the (pure,
    per-run deterministic) answers of every external invocation.
  * `St` is the process state the script mutates: the accumulated
    `exit_code` (bitwise OR of failure flags), the `last_headers` cache,
    the ordered log of printed status lines (`events`), and the ordered
    trace of external invocations (`calls`).
  * Each Python function becomes a Lean function threading `St`
    explicitly; `sys.exit` in `self_test` becomes a Boolean "exited"
    flag, and the uncaught IndexError reachable in `redirect_check`
    becomes an `Option` (`none` = the exception propagates and the
    process crashes).
-/

namespace BlogCheck

/-- Printed output lines that carry check semantics: success / failure
lines from `print_status`, warning lines from `print_warning`, plain
informational prints, and the propagation-count line of `dns_audit`
(kept with its numeric counts). -/
inductive Event where
  | success (msg : String)
  | failure (msg : String)
  | warning (msg : String)
  | info (msg : String)
  | propagation (pub : Nat) (pubTotal : Nat) (auth : Nat) (authTotal : Nat)
deriving Repr, DecidableEq

/-- Record of one external-tool invocation (one subprocess spawn or one
PATH lookup), in program order. -/
inductive Call where
  | which (tool : String)
  | dig (name : String) (rtype : String) (resolver : Option String)
  | ping (ip : String)
  | curl_status (url : String)
  | curl_headers (url : String)
  | traceroute (host : String)
  | subfinder (host : String)
  | digTrace (host : String)
deriving Repr, BEq, DecidableEq

/-- Process state of one run: the two module-level globals of the script
(`exit_code`, `last_headers`) plus the observation logs. -/
structure St where
  exit_code : Nat
  last_headers : List String
  events : List Event
  calls : List Call
deriving Repr, DecidableEq

/-- External world: tool presence and the answer every external
invocation would return.  Answers are fixed for the duration of a run
(a deterministic environment). -/
structure Env where
  digPresent : Bool
  dig : String → String → Option String → List String
  ping : String → Bool
  curl_status : String → String
  curl_headers : String → List String
  traceroutePresent : Bool
  subfinderPresent : Bool

/-! ### Configuration constants (lines 76-91 of the source) -/

def CNAME_1_HOST : String := "abcd1234"

def CNAME_1_TARGET : String := "gv-xxxxxxx.dv.googlehosted.com"

def WWW_TARGET : String := "ghs.google.com"

def BLOG_SUBDOMAIN : String := "blog"

def BLOGSPOT_DOMAIN : String := "example.blogspot.com"

def CUSTOM_DOMAIN : String := "example.com"

def RESOLVERS : List String := ["8.8.8.8", "1.1.1.1", "9.9.9.9"]

def VERSION : String := "4.4"

def TEST_HOST : String := "www.google.com"

def BLOGGER_IPS : List String :=
  ["216.239.32.21", "216.239.34.21", "216.239.36.21", "216.239.38.21"]

def FORWARD_IPS : List String :=
  ["198.49.23.144", "198.49.23.145", "198.185.159.144", "198.185.159.145"]

/-- Initial globals: `exit_code = 0`, `last_headers = []` (lines 93-94). -/
def initSt : St := { exit_code := 0, last_headers := [], events := [], calls := [] }

/-! ### String primitives (structural models of the Python operations) -/

/-- Model of Python `str.endswith` (and of the regex `domain$` test on a
string without trailing newline): suffix test on the character list. -/
def strEndsWith (s suffix : String) : Bool :=
  suffix.toList.isSuffixOf s.toList

/-- Model of Python `str.startswith`: prefix test on the character list. -/
def strStartsWith (s pre : String) : Bool :=
  pre.toList.isPrefixOf s.toList

/-- Helper for `pySplit`: walk the characters, `acc` holding the current
token reversed. -/
def pySplitAux : List Char → List Char → List String
  | [], acc => if acc.isEmpty then [] else [String.mk acc.reverse]
  | c :: cs, acc =>
    if c.isWhitespace then
      (if acc.isEmpty then [] else [String.mk acc.reverse]) ++ pySplitAux cs []
    else
      pySplitAux cs (c :: acc)

/-- Model of Python `str.split()` with no separator: the maximal
whitespace-free runs, in order (no empty tokens). -/
def pySplit (s : String) : List String := pySplitAux s.toList []

/-! ### Output and call-recording primitives -/

/-- Model of `print_status(ok, msg)` (lines 96-99): prints a success or a
failure line and returns `not ok` (the failure flag the callers OR into
`exit_code`). -/
def print_status (ok : Bool) (msg : String) (s : St) : Bool × St :=
  (!ok, { s with events := s.events ++ [if ok then Event.success msg else Event.failure msg] })

/-- Model of `print_warning(msg)` (lines 101-102). -/
def print_warning (msg : String) (s : St) : St :=
  { s with events := s.events ++ [Event.warning msg] }

/-- Model of `exit_code |= print_status(ok, msg)`: the failure flag
returned by `print_status` is OR-ed into the accumulated exit code
(Python converts the Bool to 0 or 1). -/
def orPS (ok : Bool) (msg : String) (s : St) : St :=
  let (f, s1) := print_status ok msg s
  { s1 with exit_code := s1.exit_code ||| f.toNat }

/-- Model of a bare `print_status(ok, msg)` whose return value the caller
discards (e.g. line 135). -/
def psOnly (ok : Bool) (msg : String) (s : St) : St :=
  (print_status ok msg s).2

/-- Model of a plain `print(...)` line (banners and detail lines). -/
def infoP (msg : String) (s : St) : St :=
  { s with events := s.events ++ [Event.info msg] }

/-- Append one external invocation to the call trace. -/
def recCall (c : Call) (s : St) : St :=
  { s with calls := s.calls ++ [c] }

/-- Append a batch of external invocations (one per list element, in
order) to the call trace. -/
def recCalls (cs : List Call) (s : St) : St :=
  { s with calls := s.calls ++ cs }

/-! ### External-tool wrappers (lines 104-120) -/

/-- Model of `dig(name, rtype, resolver)` (lines 108-111): one external
invocation returning the answer lines (empty on NXDOMAIN or error). -/
def dig (env : Env) (name : String) (rtype : String) (resolver : Option String) (s : St) :
    List String × St :=
  (env.dig name rtype resolver, recCall (Call.dig name rtype resolver) s)

/-- Model of `ping(ip)` (lines 113-114). -/
def pingCall (env : Env) (ip : String) (s : St) : Bool × St :=
  (env.ping ip, recCall (Call.ping ip) s)

/-- Model of `curl_status(url)` (lines 116-117): the HTTP status code as
text, empty string on transport failure. -/
def curl_statusCall (env : Env) (url : String) (s : St) : String × St :=
  (env.curl_status url, recCall (Call.curl_status url) s)

/-- Model of `curl_headers(url)` (lines 119-120): the raw response header
lines, status line first; empty list on failure. -/
def curl_headersCall (env : Env) (url : String) (s : St) : List String × St :=
  (env.curl_headers url, recCall (Call.curl_headers url) s)

/-! ### Stage 1: self_test (lines 122-143) -/

/-- Model of `self_test()`.  The returned Bool is true when the Python
code called `sys.exit(exit_code)` (fail-fast).  Note line 129 evaluates
`dig(TEST_HOST)` in the guard and, when the guard is truthy, a second
time for the indexing. -/
def self_test (env : Env) (s : St) : St × Bool :=
  let s := infoP ("===== blog-check.py v" ++ VERSION ++ " — Self‑Test =====") s
  let s := recCall (Call.which "dig") s
  if !env.digPresent then
    (orPS false "dig missing" s, true)
  else
    let (r1, s) := dig env TEST_HOST "A" none s
    let (ip, s) :=
      if r1.isEmpty then ("", s)
      else
        let (r2, s2) := dig env TEST_HOST "A" none s
        (r2.headD "", s2)
    let s := orPS (ip != "") ("DNS resolves " ++ TEST_HOST ++ " → " ++ ip) s
    let (pingFailed, s) :=
      if ip == "" then (true, s)
      else
        let (ok, s2) := pingCall env ip s
        (!ok, s2)
    if pingFailed then
      (orPS false "ping failed" s, true)
    else
      let s := psOnly true "ping OK" s
      let (status, s) := curl_statusCall env ("https://" ++ TEST_HOST) s
      if status != "200" then
        (orPS false ("HTTPS status " ++ status) s, true)
      else
        let s := psOnly true "HTTPS OK" s
        (infoP "✔ Self‑tests passed" s, false)

/-! ### Stage 2: nameserver_sanity (lines 145-151) -/

/-- Model of the test `re.search(fr"{re.escape(CUSTOM_DOMAIN)}$", n)`:
with no MULTILINE flag, `$` matches at the end of the string or just
before one trailing newline. -/
def glueMatch (n : String) : Bool :=
  strEndsWith n CUSTOM_DOMAIN || strEndsWith n (CUSTOM_DOMAIN ++ "\n")

/-- Model of `nameserver_sanity()`: fetch NS records, warn on glue-style
nameservers, return the raw list. -/
def nameserver_sanity (env : Env) (s : St) : List String × St :=
  let s := infoP "===== Nameserver Sanity =====" s
  let (ns, s) := dig env CUSTOM_DOMAIN "NS" none s
  if ns.any glueMatch then
    (ns, print_warning ("Glue-style NS detected: " ++ toString ns) s)
  else
    (ns, psOnly true "Nameservers correct" s)

/-! ### Stage 3: dns_audit (lines 153-170) -/

/-- Matching count over the three public resolvers for `fqdn`: how many
return a first CNAME answer equal to the local first answer `c0`
(an empty answer stands in as the empty string, per `(... or [''])[0]`). -/
def pubCount (env : Env) (fqdn : String) (c0 : String) : Nat :=
  RESOLVERS.countP (fun r => ((env.dig fqdn "CNAME" (some r)).headD "") == c0)

/-- Matching count over the discovered authoritative nameservers. -/
def authCount (env : Env) (fqdn : String) (ns_list : List String) (c0 : String) : Nat :=
  ns_list.countP (fun n => ((env.dig fqdn "CNAME" (some n)).headD "") == c0)

/-- Model of one iteration of the `dns_audit` loop body (lines 156-170)
for the pair `(host, expected)`. -/
def audit_host (env : Env) (ns_list : List String) (host : String) (expected : String)
    (s : St) : St :=
  let fqdn := host ++ "." ++ CUSTOM_DOMAIN
  let s := infoP ("── " ++ fqdn ++ " ──") s
  let (cname, s) := dig env fqdn "CNAME" none s
  match cname with
  | [] => orPS false ("Missing CNAME — expected " ++ host ++ "→" ++ expected) s
  | c0 :: _ =>
    let s := infoP ("CNAME → " ++ c0) s
    let s :=
      if host == CNAME_1_HOST then
        let (a, s2) := dig env fqdn "A" none s
        if a.isEmpty then
          psOnly true "Verification CNAME NXDOMAIN on A lookup" s2
        else
          print_warning "Verification CNAME resolves to A-record — NXDOMAIN expected" s2
      else s
    let s := recCalls (RESOLVERS.map (fun r => Call.dig fqdn "CNAME" (some r))) s
    let s := recCalls (ns_list.map (fun n => Call.dig fqdn "CNAME" (some n))) s
    { s with events := s.events ++
        [Event.propagation (pubCount env fqdn c0) RESOLVERS.length
          (authCount env fqdn ns_list c0) ns_list.length] }

/-- Model of `dns_audit(ns_list)`: banner, then the loop over the three
configured (host, expected-target) pairs in order. -/
def dns_audit (env : Env) (ns_list : List String) (s : St) : St :=
  let s := infoP "===== DNS Audit =====" s
  let s := audit_host env ns_list "www" WWW_TARGET s
  let s := audit_host env ns_list BLOG_SUBDOMAIN BLOGSPOT_DOMAIN s
  audit_host env ns_list CNAME_1_HOST CNAME_1_TARGET s

/-! ### Stage 4: root_a_record_check (lines 172-183) -/

/-- Model of `root_a_record_check()`: classify the root A records and
return the mode string used by the redirect check. -/
def root_a_record_check (env : Env) (s : St) : String × St :=
  let s := infoP "===== Root A-record Presence & Forwarding =====" s
  let (root_ips, s) := dig env CUSTOM_DOMAIN "A" none s
  if BLOGGER_IPS.all (fun ip => root_ips.contains ip) then
    ("blogger", psOnly true "All Blogger A-records present" s)
  else if FORWARD_IPS.all (fun ip => root_ips.contains ip) then
    let s := print_warning "Registrar DNS‑forwarding detected — recommend switching to Blogger A‑records" s
    ("registrar", psOnly true "Registrar DNS‑forwarding — redirect handled externally" s)
  else
    ("invalid", orPS false ("A-record misconfigured — found " ++ toString root_ips) s)

/-! ### Stage 5: redirect_check (lines 185-194) -/

/-- Model of `last_headers[0].split()[1] if last_headers else ''`
(line 189): `none` when the indexing raises IndexError. -/
def parseStatus (hs : List String) : Option String :=
  match hs with
  | [] => some ""
  | h :: _ => (pySplit h).get? 1

/-- Model of `next((l.split()[1] for l in last_headers if
l.startswith('Location:')), '')` (line 190): `none` when the first
matching line has no second token (IndexError). -/
def parseLocation (hs : List String) : Option String :=
  match hs.find? (fun l => strStartsWith l "Location:") with
  | none => some ""
  | some l => (pySplit l).get? 1

/-- Combined parse of status code and Location value from the captured
headers; `none` when either indexing raises. -/
def redirectParse (hs : List String) : Option (String × String) :=
  match parseStatus hs, parseLocation hs with
  | some st, some loc => some (st, loc)
  | _, _ => none

/-- Model of `redirect_check(mode)`: only acts in mode `blogger`; `none`
models the uncaught IndexError (process crash) on degenerate headers. -/
def redirect_check (env : Env) (mode : String) (s : St) : Option St :=
  if mode == "blogger" then
    let (hs, s) := curl_headersCall env ("https://" ++ CUSTOM_DOMAIN) s
    let s := { s with last_headers := hs }
    match redirectParse hs with
    | none => none
    | some (status, location) =>
      some (orPS (status == "301" && location == ("https://www." ++ CUSTOM_DOMAIN ++ "/"))
        "HTTP 301 → www" s)
  else
    some s

/-! ### Stage 6: https_status (lines 196-200) -/

/-- Model of `https_status()`. -/
def https_status (env : Env) (s : St) : St :=
  let s := infoP "===== Blogger HTTPS Status =====" s
  let (st1, s) := curl_statusCall env ("https://www." ++ CUSTOM_DOMAIN) s
  let s := orPS (st1 == "200") "HTTPS enabled" s
  let (st2, s) := curl_statusCall env ("http://www." ++ CUSTOM_DOMAIN) s
  orPS (st2 == "301") "HTTP→HTTPS redirect enabled" s

/-! ### Optional stages (lines 202-211) -/

/-- Model of `advanced_diagnostics()`: each optional tool runs only when
present; neither touches the exit code. -/
def advanced_diagnostics (env : Env) (s : St) : St :=
  let s := recCall (Call.which "traceroute") s
  let s :=
    if env.traceroutePresent then
      recCall (Call.traceroute CUSTOM_DOMAIN) (infoP "===== ADVANCED: Traceroute =====" s)
    else s
  let s := recCall (Call.which "subfinder") s
  if env.subfinderPresent then
    recCall (Call.subfinder CUSTOM_DOMAIN) (infoP "===== ADVANCED: Subdomain Enumeration =====" s)
  else s

/-- Model of `debug_info()`: dig +trace dump plus replay of the captured
headers, if any. -/
def debug_info (s : St) : St :=
  let s := infoP "===== DEBUG =====" s
  let s := recCall (Call.digTrace CUSTOM_DOMAIN) s
  if s.last_headers.isEmpty then s
  else infoP (String.intercalate "\n" s.last_headers) s

/-! ### Driver: main (lines 213-227) -/

/-- Outcome of a run: normal `sys.exit(exit_code)` with the final state,
or a crash from the uncaught IndexError in `redirect_check`. -/
inductive Outcome where
  | exited (code : Nat) (s : St)
  | crashed
deriving Repr, DecidableEq

/-- Model of `main()` for given `--advanced` / `--debug` flags. -/
def runMain (env : Env) (advancedMode : Bool) (debugMode : Bool) : Outcome :=
  let (s, exitedEarly) := self_test env initSt
  if exitedEarly then Outcome.exited s.exit_code s
  else
    let (ns_list, s) := nameserver_sanity env s
    let s := dns_audit env ns_list s
    let (mode, s) := root_a_record_check env s
    match redirect_check env mode s with
    | none => Outcome.crashed
    | some s =>
      let s := https_status env s
      let s := if advancedMode then advanced_diagnostics env s else s
      let s := if debugMode then debug_info s else s
      Outcome.exited s.exit_code s


/-! ### Derived definitions used by the verification statements -/

/-- Whether some printed line was a failure line. -/
def Event.isFailure : Event → Bool
  | Event.failure _ => true
  | _ => false

/-- Whether the run has reported at least one failure so far. -/
def St.hasFailure (s : St) : Bool := s.events.any Event.isFailure

/-- Exit-status invariant of the script: the accumulated exit code is
nonzero exactly when some failure line has been printed. -/
def goodSt (s : St) : Prop := s.exit_code ≠ 0 ↔ s.hasFailure = true

/-- The status line of the captured headers parses (Python does not raise
IndexError on line 189): empty capture, or a first line with at least two
whitespace-separated tokens. -/
def statusLineOk (hs : List String) : Bool :=
  match hs with
  | [] => true
  | h :: _ => decide (2 ≤ (pySplit h).length)

/-- The Location line of the captured headers parses (no IndexError on
line 190): no Location-prefixed line, or the first one has a value token. -/
def locationLineOk (hs : List String) : Bool :=
  match hs.find? (fun l => strStartsWith l "Location:") with
  | none => true
  | some l => decide (2 ≤ (pySplit l).length)

/-- Exit code of a completed run (`0` unused for a crash). -/
def outcomeCode : Outcome → Nat
  | Outcome.exited c _ => c
  | Outcome.crashed => 0

/-- Final state of a completed run (`initSt` unused for a crash). -/
def outcomeSt : Outcome → St
  | Outcome.exited _ s => s
  | Outcome.crashed => initSt

/-! ### Concrete environments for witnesses and counterexamples -/

/-- Healthy environment: everything resolves, pings and redirects as the
script expects. -/
def envW : Env where
  digPresent := true
  dig := fun name rtype _ =>
    if name == TEST_HOST && rtype == "A" then ["142.250.74.36"]
    else if rtype == "NS" then ["ns1.registrar.net.", "ns2.registrar.net."]
    else if rtype == "CNAME" then
      (if name == CNAME_1_HOST ++ "." ++ CUSTOM_DOMAIN then [CNAME_1_TARGET ++ "."]
       else ["ghs.google.com."])
    else if name == CUSTOM_DOMAIN && rtype == "A" then BLOGGER_IPS
    else []
  ping := fun _ => true
  curl_status := fun url => if url == "http://www." ++ CUSTOM_DOMAIN then "301" else "200"
  curl_headers := fun _ => ["HTTP/2 301", "Location: https://www." ++ CUSTOM_DOMAIN ++ "/"]
  traceroutePresent := false
  subfinderPresent := false

/-- Environment with the required DNS lookup tool missing. -/
def envBad : Env where
  digPresent := false
  dig := fun _ _ _ => []
  ping := fun _ => false
  curl_status := fun _ => ""
  curl_headers := fun _ => []
  traceroutePresent := false
  subfinderPresent := false

/-- Environment where every DNS lookup answers with one address; used to
count the self-test resolutions of the known-good host. -/
def envC9 : Env where
  digPresent := true
  dig := fun _ _ _ => ["142.250.74.36"]
  ping := fun _ => true
  curl_status := fun _ => "200"
  curl_headers := fun _ => []
  traceroutePresent := false
  subfinderPresent := false

/-- Environment whose header fetch returns a one-token status line,
the input on which line 189 raises IndexError. -/
def envC10 : Env where
  digPresent := true
  dig := fun _ _ _ => []
  ping := fun _ => true
  curl_status := fun _ => ""
  curl_headers := fun _ => ["HTTP/2"]
  traceroutePresent := false
  subfinderPresent := false

/-- Nameserver list produced by `envW` for the audit. -/
def ns0 : List String := ["ns1.registrar.net.", "ns2.registrar.net."]


/-! ### General lemmas about the exit-code accumulator -/

/-- OR-ing the failure bit into any accumulator makes it nonzero. -/
theorem lor_one_ne_zero (x : Nat) : x ||| 1 ≠ 0 := by
  intro h
  have h2 := congrArg (fun n => n.testBit 0) h
  simp [Nat.testBit_lor] at h2

/-- OR-accumulation never decreases the exit code. -/
theorem exit_le_lor (x y : Nat) : x ≤ x ||| y :=
  Nat.le_of_testBit (fun i h => by simp [Nat.testBit_lor, h])

/-- Two OR-accumulations never decrease the exit code. -/
theorem mono_chain2 (x a b : Nat) : x ≤ x ||| a ||| b :=
  le_trans (exit_le_lor x a) (exit_le_lor _ b)

/-- Pointwise-equal predicates give the same `List.any`. -/
theorem any_congr_mem {α : Type} (l : List α) (p q : α → Bool)
    (h : ∀ x ∈ l, p x = q x) : l.any p = l.any q := by
  induction l with
  | nil => rfl
  | cons a t ih =>
    simp only [List.any_cons, h a (by simp)]
    rw [ih (fun x hx => h x (by simp [hx]))]

/-! ### Parsing lemmas for the redirect check -/

/-- Indexing position 1 succeeds exactly on lists of length at least two. -/
theorem get1_isSome (l : List String) : (l[1]?).isSome = decide (2 ≤ l.length) := by
  rcases l with _ | ⟨a, _ | ⟨b, t⟩⟩ <;> simp

/-- The status-line parse succeeds exactly when `statusLineOk` holds. -/
theorem parseStatus_isSome (hs : List String) : (parseStatus hs).isSome = statusLineOk hs := by
  cases hs <;> simp [parseStatus, statusLineOk, get1_isSome]

/-- The Location parse succeeds exactly when `locationLineOk` holds. -/
theorem parseLocation_isSome (hs : List String) :
    (parseLocation hs).isSome = locationLineOk hs := by
  unfold parseLocation locationLineOk
  cases hs.find? (fun l => strStartsWith l "Location:") <;> simp [get1_isSome]

/-- The combined parse succeeds exactly when both component parses do. -/
theorem redirectParse_isSome (hs : List String) :
    (redirectParse hs).isSome = ((parseStatus hs).isSome && (parseLocation hs).isSome) := by
  unfold redirectParse
  cases parseStatus hs <;> cases parseLocation hs <;> simp

/-! ### Preservation of the exit-status invariant through each primitive -/

/-- Initial state satisfies the exit-status invariant. -/
theorem goodSt_initSt : goodSt initSt := by simp [goodSt, initSt, St.hasFailure]

/-- An OR-accumulated status line preserves the invariant. -/
theorem goodSt_orPS (ok : Bool) (m : String) (s : St) (h : goodSt s) : goodSt (orPS ok m s) := by
  cases ok
  · simp only [goodSt, orPS, print_status, St.hasFailure] at h ⊢
    simp [List.any_append, Event.isFailure, lor_one_ne_zero]
  · simp only [goodSt, orPS, print_status, St.hasFailure] at h ⊢
    simpa [List.any_append, Event.isFailure, Nat.or_zero] using h

/-- A discarded success line preserves the invariant. -/
theorem goodSt_psOnly (m : String) (s : St) (h : goodSt s) : goodSt (psOnly true m s) := by
  simp only [goodSt, psOnly, print_status, St.hasFailure] at h ⊢
  simpa [List.any_append, Event.isFailure] using h

/-- A warning line preserves the invariant (warnings never flip the flag). -/
theorem goodSt_warn (m : String) (s : St) (h : goodSt s) : goodSt (print_warning m s) := by
  simp only [goodSt, print_warning, St.hasFailure] at h ⊢
  simpa [List.any_append, Event.isFailure] using h

/-- A plain print preserves the invariant. -/
theorem goodSt_infoP (m : String) (s : St) (h : goodSt s) : goodSt (infoP m s) := by
  simp only [goodSt, infoP, St.hasFailure] at h ⊢
  simpa [List.any_append, Event.isFailure] using h

/-- Recording a call preserves the invariant. -/
theorem goodSt_recCall (c : Call) (s : St) (h : goodSt s) : goodSt (recCall c s) := h

/-- Recording a batch of calls preserves the invariant. -/
theorem goodSt_recCalls (cs : List Call) (s : St) (h : goodSt s) : goodSt (recCalls cs s) := h

/-- Overwriting the header cache preserves the invariant. -/
theorem goodSt_setHeaders (l : List String) (s : St) (h : goodSt s) :
    goodSt { s with last_headers := l } := h

/-- The propagation-count line preserves the invariant. -/
theorem goodSt_propEvent (p q u v : Nat) (s : St) (h : goodSt s) :
    goodSt { s with events := s.events ++ [Event.propagation p q u v] } := by
  simp only [goodSt, St.hasFailure] at h ⊢
  simpa [List.any_append, Event.isFailure] using h

/-! ### Preservation of the exit-status invariant through each stage -/

/-- The HTTPS-status stage preserves the invariant. -/
theorem goodSt_https (env : Env) (s : St) (h : goodSt s) : goodSt (https_status env s) := by
  simp only [https_status, curl_statusCall]
  exact goodSt_orPS _ _ _ (goodSt_recCall _ _ (goodSt_orPS _ _ _ (goodSt_recCall _ _
    (goodSt_infoP _ _ h))))

/-- The nameserver-sanity stage preserves the invariant. -/
theorem goodSt_nameserver (env : Env) (s : St) (h : goodSt s) :
    goodSt (nameserver_sanity env s).2 := by
  simp only [nameserver_sanity, dig]
  split
  · exact goodSt_warn _ _ (goodSt_recCall _ _ (goodSt_infoP _ _ h))
  · exact goodSt_psOnly _ _ (goodSt_recCall _ _ (goodSt_infoP _ _ h))

/-- One audit-loop iteration preserves the invariant. -/
theorem goodSt_audit_host (env : Env) (ns : List String) (host expected : String) (s : St)
    (h : goodSt s) : goodSt (audit_host env ns host expected s) := by
  simp only [audit_host, dig]
  split
  · exact goodSt_orPS _ _ _ (goodSt_recCall _ _ (goodSt_infoP _ _ h))
  · apply goodSt_propEvent
    apply goodSt_recCalls
    apply goodSt_recCalls
    split
    · split
      · exact goodSt_psOnly _ _ (goodSt_recCall _ _ (goodSt_infoP _ _ (goodSt_recCall _ _
          (goodSt_infoP _ _ h))))
      · exact goodSt_warn _ _ (goodSt_recCall _ _ (goodSt_infoP _ _ (goodSt_recCall _ _
          (goodSt_infoP _ _ h))))
    · exact goodSt_infoP _ _ (goodSt_recCall _ _ (goodSt_infoP _ _ h))

/-- The DNS-audit stage preserves the invariant. -/
theorem goodSt_dns_audit (env : Env) (ns : List String) (s : St) (h : goodSt s) :
    goodSt (dns_audit env ns s) := by
  simp only [dns_audit]
  exact goodSt_audit_host _ _ _ _ _ (goodSt_audit_host _ _ _ _ _ (goodSt_audit_host _ _ _ _ _
    (goodSt_infoP _ _ h)))

/-- The root A-record stage preserves the invariant. -/
theorem goodSt_root (env : Env) (s : St) (h : goodSt s) :
    goodSt (root_a_record_check env s).2 := by
  simp only [root_a_record_check, dig]
  split
  · exact goodSt_psOnly _ _ (goodSt_recCall _ _ (goodSt_infoP _ _ h))
  · split
    · exact goodSt_psOnly _ _ (goodSt_warn _ _ (goodSt_recCall _ _ (goodSt_infoP _ _ h)))
    · exact goodSt_orPS _ _ _ (goodSt_recCall _ _ (goodSt_infoP _ _ h))

/-- The redirect stage preserves the invariant on every non-crashing run. -/
theorem goodSt_redirect (env : Env) (mode : String) (s s2 : St)
    (hr : redirect_check env mode s = some s2) (h : goodSt s) : goodSt s2 := by
  unfold redirect_check at hr
  split at hr
  · rcases hp : redirectParse (env.curl_headers ("https://" ++ CUSTOM_DOMAIN)) with _ | ⟨st, loc⟩
    · rw [curl_headersCall] at hr
      simp only [hp] at hr
      cases hr
    · rw [curl_headersCall] at hr
      simp only [hp] at hr
      cases hr
      exact goodSt_orPS _ _ _ (goodSt_setHeaders _ _ (goodSt_recCall _ _ h))
  · cases hr
    exact h

/-- The advanced-diagnostics stage preserves the invariant. -/
theorem goodSt_advanced (env : Env) (s : St) (h : goodSt s) :
    goodSt (advanced_diagnostics env s) := by
  simp only [advanced_diagnostics]
  split
  · split
    · exact goodSt_recCall _ _ (goodSt_infoP _ _ (goodSt_recCall _ _ (goodSt_recCall _ _
        (goodSt_infoP _ _ (goodSt_recCall _ _ h)))))
    · exact goodSt_recCall _ _ (goodSt_recCall _ _ (goodSt_infoP _ _ (goodSt_recCall _ _ h)))
  · split
    · exact goodSt_recCall _ _ (goodSt_infoP _ _ (goodSt_recCall _ _ (goodSt_recCall _ _ h)))
    · exact goodSt_recCall _ _ (goodSt_recCall _ _ h)

/-- The debug stage preserves the invariant. -/
theorem goodSt_debug (s : St) (h : goodSt s) : goodSt (debug_info s) := by
  simp only [debug_info]
  split
  · exact goodSt_recCall _ _ (goodSt_infoP _ _ h)
  · exact goodSt_infoP _ _ (goodSt_recCall _ _ (goodSt_infoP _ _ h))

/-- The self-test stage preserves the invariant. -/
theorem goodSt_self_test (env : Env) (s : St) (h : goodSt s) : goodSt (self_test env s).1 := by
  by_cases hd : env.digPresent = true
  · cases hr : env.dig TEST_HOST "A" none with
    | nil =>
      simp [self_test, dig, pingCall, curl_statusCall, recCall, infoP, orPS, psOnly, print_status,
        hd, hr, goodSt, St.hasFailure, List.any_append, Event.isFailure, Nat.or_zero,
        lor_one_ne_zero]
    | cons a t =>
      by_cases ha : a = ""
      · subst ha
        simp [self_test, dig, pingCall, curl_statusCall, recCall, infoP, orPS, psOnly,
          print_status, hd, hr, goodSt, St.hasFailure, List.any_append, Event.isFailure,
          Nat.or_zero, lor_one_ne_zero]
      · have ha2 : (a == "") = false := beq_eq_false_iff_ne.mpr ha
        by_cases hping : env.ping a = true
        · by_cases hst : env.curl_status ("https://" ++ TEST_HOST) = "200"
          · simpa [self_test, dig, pingCall, curl_statusCall, recCall, infoP, orPS, psOnly,
              print_status, hd, hr, ha, ha2, hping, hst, goodSt, St.hasFailure, List.any_append,
              Event.isFailure, Nat.or_zero, lor_one_ne_zero, bne] using h
          · simp [self_test, dig, pingCall, curl_statusCall, recCall, infoP, orPS, psOnly,
              print_status, hd, hr, ha, ha2, hping, hst, goodSt, St.hasFailure, List.any_append,
              Event.isFailure, Nat.or_zero, lor_one_ne_zero]
        · have hping2 : env.ping a = false := by simpa using hping
          simp [self_test, dig, pingCall, curl_statusCall, recCall, infoP, orPS, psOnly,
            print_status, hd, hr, ha, ha2, hping2, goodSt, St.hasFailure, List.any_append,
            Event.isFailure, Nat.or_zero, lor_one_ne_zero]
  · have hd2 : env.digPresent = false := by simpa using hd
    simp [self_test, dig, pingCall, curl_statusCall, recCall, infoP, orPS, psOnly, print_status,
      hd2, goodSt, St.hasFailure, List.any_append, Event.isFailure, Nat.or_zero, lor_one_ne_zero]

/-! ### Monotonicity of the exit code through each stage -/

/-- The self-test never decreases the exit code. -/
theorem mono_self_test (env : Env) (s : St) : s.exit_code ≤ (self_test env s).1.exit_code := by
  by_cases hd : env.digPresent = true
  · cases hr : env.dig TEST_HOST "A" none with
    | nil =>
      simp only [self_test, dig, pingCall, curl_statusCall, recCall, infoP, orPS, psOnly,
        print_status, hd, hr]
      simp only [List.isEmpty_nil, if_true, Bool.not_true, if_false] <;>
      first
        | exact le_refl _
        | exact exit_le_lor _ _
        | exact mono_chain2 _ _ _
    | cons a t =>
      by_cases ha : a = ""
      · subst ha
        simp [self_test, dig, pingCall, curl_statusCall, recCall, infoP, orPS, psOnly,
          print_status, hd, hr] <;>
        first
          | exact le_refl _
          | exact exit_le_lor _ _
          | exact mono_chain2 _ _ _
      · have ha2 : (a == "") = false := beq_eq_false_iff_ne.mpr ha
        by_cases hping : env.ping a = true
        · by_cases hst : env.curl_status ("https://" ++ TEST_HOST) = "200"
          · simp [self_test, dig, pingCall, curl_statusCall, recCall, infoP, orPS, psOnly,
              print_status, hd, hr, ha, ha2, hping, hst, bne] <;>
            first
              | exact le_refl _
              | exact exit_le_lor _ _
              | exact mono_chain2 _ _ _
          · simp [self_test, dig, pingCall, curl_statusCall, recCall, infoP, orPS, psOnly,
              print_status, hd, hr, ha, ha2, hping, hst, bne] <;>
            first
              | exact le_refl _
              | exact exit_le_lor _ _
              | exact mono_chain2 _ _ _
        · have hping2 : env.ping a = false := by simpa using hping
          simp [self_test, dig, pingCall, curl_statusCall, recCall, infoP, orPS, psOnly,
            print_status, hd, hr, ha, ha2, hping2, bne] <;>
          first
            | exact le_refl _
            | exact exit_le_lor _ _
            | exact mono_chain2 _ _ _
  · have hd2 : env.digPresent = false := by simpa using hd
    simp [self_test, dig, pingCall, curl_statusCall, recCall, infoP, orPS, psOnly, print_status,
      hd2] <;>
    first
      | exact le_refl _
      | exact exit_le_lor _ _
      | exact mono_chain2 _ _ _

/-- The nameserver-sanity stage never changes the exit code. -/
theorem mono_nameserver (env : Env) (s : St) :
    s.exit_code ≤ (nameserver_sanity env s).2.exit_code := by
  simp only [nameserver_sanity, dig]
  split
  · exact le_refl _
  · exact le_refl _

/-- One audit-loop iteration never decreases the exit code. -/
theorem mono_audit_host (env : Env) (ns : List String) (host expected : String) (s : St) :
    s.exit_code ≤ (audit_host env ns host expected s).exit_code := by
  simp only [audit_host, dig]
  split
  · exact exit_le_lor _ _
  · split
    · split
      · exact le_refl _
      · exact le_refl _
    · exact le_refl _

/-- The DNS-audit stage never decreases the exit code. -/
theorem mono_dns_audit (env : Env) (ns : List String) (s : St) :
    s.exit_code ≤ (dns_audit env ns s).exit_code := by
  simp only [dns_audit]
  have h1 := mono_audit_host env ns "www" WWW_TARGET (infoP "===== DNS Audit =====" s)
  have h2 := mono_audit_host env ns BLOG_SUBDOMAIN BLOGSPOT_DOMAIN
    (audit_host env ns "www" WWW_TARGET (infoP "===== DNS Audit =====" s))
  have h3 := mono_audit_host env ns CNAME_1_HOST CNAME_1_TARGET
    (audit_host env ns BLOG_SUBDOMAIN BLOGSPOT_DOMAIN
      (audit_host env ns "www" WWW_TARGET (infoP "===== DNS Audit =====" s)))
  exact le_trans h1 (le_trans h2 h3)

/-- The root A-record stage never decreases the exit code. -/
theorem mono_root (env : Env) (s : St) :
    s.exit_code ≤ (root_a_record_check env s).2.exit_code := by
  simp only [root_a_record_check, dig]
  split
  · exact le_refl _
  · split
    · exact le_refl _
    · exact exit_le_lor _ _

/-- The redirect stage never decreases the exit code on a non-crashing run. -/
theorem mono_redirect (env : Env) (mode : String) (s s2 : St)
    (hr : redirect_check env mode s = some s2) : s.exit_code ≤ s2.exit_code := by
  unfold redirect_check at hr
  split at hr
  · rcases hp : redirectParse (env.curl_headers ("https://" ++ CUSTOM_DOMAIN)) with _ | ⟨st, loc⟩
    · rw [curl_headersCall] at hr
      simp only [hp] at hr
      cases hr
    · rw [curl_headersCall] at hr
      simp only [hp] at hr
      cases hr
      exact exit_le_lor _ _
  · cases hr
    exact le_refl _

/-- The HTTPS-status stage never decreases the exit code. -/
theorem mono_https (env : Env) (s : St) : s.exit_code ≤ (https_status env s).exit_code := by
  simp only [https_status, curl_statusCall]
  exact mono_chain2 _ _ _

/-! ### Characterization of completed runs -/

/-- Every run that reaches `sys.exit(exit_code)` exits with exactly the
accumulated code of its final state, and that state satisfies the
exit-status invariant. -/
theorem runMain_exited (env : Env) (a d : Bool) (code : Nat) (s : St)
    (h : runMain env a d = Outcome.exited code s) : code = s.exit_code ∧ goodSt s := by
  unfold runMain at h
  rcases hst : self_test env initSt with ⟨s1, ex⟩
  rw [hst] at h
  have g1 : goodSt s1 := by
    have hg := goodSt_self_test env initSt goodSt_initSt
    rw [hst] at hg
    exact hg
  cases ex with
  | true =>
    simp only [if_true] at h
    cases h
    exact ⟨rfl, g1⟩
  | false =>
    simp only [Bool.false_eq_true, if_false] at h
    rcases hns : nameserver_sanity env s1 with ⟨ns, s2⟩
    rw [hns] at h
    have g2 : goodSt s2 := by
      have hg := goodSt_nameserver env s1 g1
      rw [hns] at hg
      exact hg
    have g3 : goodSt (dns_audit env ns s2) := goodSt_dns_audit env ns s2 g2
    rcases hroot : root_a_record_check env (dns_audit env ns s2) with ⟨mode, s4⟩
    rw [hroot] at h
    have g4 : goodSt s4 := by
      have hg := goodSt_root env (dns_audit env ns s2) g3
      rw [hroot] at hg
      exact hg
    rcases hrc : redirect_check env mode s4 with _ | s5
    · rw [hrc] at h
      cases h
    · rw [hrc] at h
      have g5 : goodSt s5 := goodSt_redirect env mode s4 s5 hrc g4
      have g6 : goodSt (https_status env s5) := goodSt_https env s5 g5
      simp only [] at h
      cases ha : a with
      | true =>
        rw [ha] at h
        simp only [if_true] at h
        cases hd : d with
        | true =>
          rw [hd] at h
          simp only [if_true] at h
          cases h
          exact ⟨rfl, goodSt_debug _ (goodSt_advanced _ _ g6)⟩
        | false =>
          rw [hd] at h
          simp only [Bool.false_eq_true, if_false] at h
          cases h
          exact ⟨rfl, goodSt_advanced _ _ g6⟩
      | false =>
        rw [ha] at h
        simp only [Bool.false_eq_true, if_false] at h
        cases hd : d with
        | true =>
          rw [hd] at h
          simp only [if_true] at h
          cases h
          exact ⟨rfl, goodSt_debug _ g6⟩
        | false =>
          rw [hd] at h
          simp only [Bool.false_eq_true, if_false] at h
          cases h
          exact ⟨rfl, g6⟩

/-- When the self-test exits early, the whole run exits with exactly the
self-test state: no later stage runs, prints, or invokes a tool. -/
theorem runMain_of_selftest_exit (env : Env) (a d : Bool)
    (hex : (self_test env initSt).2 = true) :
    runMain env a d =
      Outcome.exited (self_test env initSt).1.exit_code (self_test env initSt).1 := by
  unfold runMain
  rcases hst : self_test env initSt with ⟨st, ex⟩
  rw [hst] at hex
  simp only at hex
  subst hex
  simp [hst]

/-! ### Claim C1 -/

/-- Claim C1: the accumulated exit status starts at zero, is only ever
combined by OR with each check failure flag, and never decreases during a
run (each stage is monotone on the exit code); on every completed run the
exit code is nonzero exactly when some check reported a failure, so every
reported failure leaves the status nonzero at process exit and a
warning-only check never makes it nonzero. -/
theorem C1_exit_status_accumulation (env : Env) (a d : Bool) (code : Nat) (s : St)
    (h : runMain env a d = Outcome.exited code s) :
    initSt.exit_code = 0 ∧
    (code ≠ 0 ↔ s.hasFailure = true) ∧
    (∀ s0 : St, s0.exit_code ≤ (self_test env s0).1.exit_code) ∧
    (∀ s0 : St, s0.exit_code ≤ (nameserver_sanity env s0).2.exit_code) ∧
    (∀ (ns : List String) (s0 : St), s0.exit_code ≤ (dns_audit env ns s0).exit_code) ∧
    (∀ s0 : St, s0.exit_code ≤ (root_a_record_check env s0).2.exit_code) ∧
    (∀ (m : String) (s0 s1 : St), redirect_check env m s0 = some s1 →
      s0.exit_code ≤ s1.exit_code) ∧
    (∀ s0 : St, s0.exit_code ≤ (https_status env s0).exit_code) := by
  obtain ⟨hcode, hgood⟩ := runMain_exited env a d code s h
  subst hcode
  exact ⟨rfl, hgood, mono_self_test env, mono_nameserver env,
    fun ns s0 => mono_dns_audit env ns s0, mono_root env,
    fun m s0 s1 hr => mono_redirect env m s0 s1 hr, mono_https env⟩

/-- Witness for C1: on the healthy environment the run completes, and its
exit code is nonzero exactly when a failure line was printed. -/
theorem C1_exit_status_accumulation_witness :
    (outcomeCode (runMain envW false false) ≠ 0 ↔
      (outcomeSt (runMain envW false false)).hasFailure = true) := by
  have h : runMain envW false false =
      Outcome.exited (outcomeCode (runMain envW false false))
        (outcomeSt (runMain envW false false)) := rfl
  exact (C1_exit_status_accumulation envW false false _ _ h).2.1

/-! ### Claim C2 -/

/-- Claim C2: root_a_record_check is a total function of the fetched root
A-record list into exactly one of the three modes; all four Blogger IPs
present (extras allowed) gives mode blogger with a success line and no
exit-code change; otherwise all four forwarding IPs present gives mode
registrar with a warning plus a success line and no exit-code change;
otherwise mode invalid with a failure line that ORs 1 into the exit code. -/
theorem C2_root_mode_classification (env : Env) (s : St) :
    ((root_a_record_check env s).1 = "blogger" ∨ (root_a_record_check env s).1 = "registrar" ∨
      (root_a_record_check env s).1 = "invalid") ∧
    (root_a_record_check env s).1 =
      (if BLOGGER_IPS.all (fun ip => (env.dig CUSTOM_DOMAIN "A" none).contains ip) then "blogger"
       else if FORWARD_IPS.all (fun ip => (env.dig CUSTOM_DOMAIN "A" none).contains ip) then
         "registrar"
       else "invalid") ∧
    (root_a_record_check env s).2.exit_code =
      (if BLOGGER_IPS.all (fun ip => (env.dig CUSTOM_DOMAIN "A" none).contains ip)
       then s.exit_code
       else if FORWARD_IPS.all (fun ip => (env.dig CUSTOM_DOMAIN "A" none).contains ip)
       then s.exit_code
       else s.exit_code ||| 1) ∧
    (root_a_record_check env s).2.events = s.events ++
      [Event.info "===== Root A-record Presence & Forwarding ====="] ++
      (if BLOGGER_IPS.all (fun ip => (env.dig CUSTOM_DOMAIN "A" none).contains ip) then
        [Event.success "All Blogger A-records present"]
       else if FORWARD_IPS.all (fun ip => (env.dig CUSTOM_DOMAIN "A" none).contains ip) then
        [Event.warning "Registrar DNS‑forwarding detected — recommend switching to Blogger A‑records",
         Event.success "Registrar DNS‑forwarding — redirect handled externally"]
       else
        [Event.failure ("A-record misconfigured — found " ++
          toString (env.dig CUSTOM_DOMAIN "A" none))]) := by
  simp only [root_a_record_check, dig, recCall, infoP, psOnly, print_status, orPS, print_warning]
  split_ifs with h1 h2 <;> simp_all [List.append_assoc, -List.all_eq_true]

/-! ### Claim C3 -/

/-- Claim C3: the self-test is fail-fast.  If the lookup tool is missing,
or the known-good host resolves to no address, or the ping fails, or the
HTTPS status of the known-good host is anything other than exactly 200
(including the empty string), then the self-test exits, the accumulated
status is nonzero, and the whole run is exactly the self-test state: no
later stage runs or produces output. -/
theorem C3_selftest_fail_fast (env : Env) (a d : Bool)
    (h : env.digPresent = false ∨
         (env.dig TEST_HOST "A" none).headD "" = "" ∨
         env.ping ((env.dig TEST_HOST "A" none).headD "") = false ∨
         env.curl_status ("https://" ++ TEST_HOST) ≠ "200") :
    (self_test env initSt).2 = true ∧
    (self_test env initSt).1.exit_code ≠ 0 ∧
    runMain env a d =
      Outcome.exited (self_test env initSt).1.exit_code (self_test env initSt).1 := by
  have key : (self_test env initSt).2 = true ∧ (self_test env initSt).1.exit_code ≠ 0 := by
    by_cases hd : env.digPresent = true
    · cases hr : env.dig TEST_HOST "A" none with
      | nil =>
        constructor <;>
          simp [self_test, dig, pingCall, curl_statusCall, recCall, infoP, orPS, psOnly,
            print_status, hd, hr, initSt, lor_one_ne_zero]
      | cons x t =>
        by_cases ha : x = ""
        · subst ha
          constructor <;>
            simp [self_test, dig, pingCall, curl_statusCall, recCall, infoP, orPS, psOnly,
              print_status, hd, hr, initSt, lor_one_ne_zero]
        · have ha2 : (x == "") = false := beq_eq_false_iff_ne.mpr ha
          by_cases hping : env.ping x = true
          · by_cases hstc : env.curl_status ("https://" ++ TEST_HOST) = "200"
            · exfalso
              rcases h with h | h | h | h
              · rw [hd] at h
                cases h
              · rw [hr] at h
                simp at h
                exact ha h
              · rw [hr] at h
                simp at h
                rw [hping] at h
                cases h
              · exact h hstc
            · constructor <;>
                simp [self_test, dig, pingCall, curl_statusCall, recCall, infoP, orPS, psOnly,
                  print_status, hd, hr, ha, ha2, hping, hstc, bne, initSt, lor_one_ne_zero,
                  Nat.or_zero]
          · have hping2 : env.ping x = false := by simpa using hping
            constructor <;>
              simp [self_test, dig, pingCall, curl_statusCall, recCall, infoP, orPS, psOnly,
                print_status, hd, hr, ha, ha2, hping2, bne, initSt, lor_one_ne_zero, Nat.or_zero]
    · have hd2 : env.digPresent = false := by simpa using hd
      constructor <;>
        simp [self_test, dig, pingCall, curl_statusCall, recCall, infoP, orPS, psOnly,
          print_status, hd2, initSt, lor_one_ne_zero]
  exact ⟨key.1, key.2, runMain_of_selftest_exit env a d key.1⟩

/-- Witness for C3: with the lookup tool missing, the self-test exits with
nonzero status and the run is exactly the self-test state. -/
theorem C3_selftest_fail_fast_witness :
    (self_test envBad initSt).2 = true ∧
    (self_test envBad initSt).1.exit_code ≠ 0 ∧
    runMain envBad false false =
      Outcome.exited (self_test envBad initSt).1.exit_code (self_test envBad initSt).1 :=
  C3_selftest_fail_fast envBad false false (Or.inl rfl)

/-! ### Claim C4 -/

/-- Claim C4: for the verification-token host with a CNAME present, an
empty A-lookup is reported as a success line and a non-empty A-lookup as a
warning line (never a failure), and the accumulated exit code is unchanged
in both cases. -/
theorem C4_verification_cname_handling (env : Env) (ns : List String) (s : St) (c0 : String)
    (rest : List String)
    (h : env.dig (CNAME_1_HOST ++ "." ++ CUSTOM_DOMAIN) "CNAME" none = c0 :: rest) :
    (audit_host env ns CNAME_1_HOST CNAME_1_TARGET s).exit_code = s.exit_code ∧
    (audit_host env ns CNAME_1_HOST CNAME_1_TARGET s).events = s.events ++
      [Event.info ("── " ++ (CNAME_1_HOST ++ "." ++ CUSTOM_DOMAIN) ++ " ──"),
       Event.info ("CNAME → " ++ c0)] ++
      (if (env.dig (CNAME_1_HOST ++ "." ++ CUSTOM_DOMAIN) "A" none).isEmpty
       then [Event.success "Verification CNAME NXDOMAIN on A lookup"]
       else [Event.warning "Verification CNAME resolves to A-record — NXDOMAIN expected"]) ++
      [Event.propagation (pubCount env (CNAME_1_HOST ++ "." ++ CUSTOM_DOMAIN) c0)
        RESOLVERS.length
        (authCount env (CNAME_1_HOST ++ "." ++ CUSTOM_DOMAIN) ns c0) ns.length] := by
  simp only [audit_host, dig, recCall, recCalls, infoP, psOnly, print_status, print_warning, orPS]
  rw [h]
  split_ifs with h1 h2 <;> simp_all [List.append_assoc]

/-- Witness for C4: on the healthy environment the verification host has a
CNAME, its A-lookup is empty, and the exit code is unchanged. -/
theorem C4_verification_cname_handling_witness :
    (audit_host envW ns0 CNAME_1_HOST CNAME_1_TARGET initSt).exit_code = initSt.exit_code :=
  (C4_verification_cname_handling envW ns0 initSt (CNAME_1_TARGET ++ ".") [] rfl).1

/-! ### Claim C5 -/

/-- Claim C5: redirect_check does nothing outside platform-managed mode:
for modes registrar and invalid it performs no header fetch, reports
nothing, and returns the state entirely unchanged (exit code and captured
headers included). -/
theorem C5_redirect_skip_nonblogger (env : Env) (mode : String) (s : St)
    (h : mode = "registrar" ∨ mode = "invalid") :
    redirect_check env mode s = some s := by
  rcases h with h | h <;> subst h <;> rfl

/-- Witness for C5: in registrar mode the redirect check leaves the
initial state untouched. -/
theorem C5_redirect_skip_nonblogger_witness :
    redirect_check envW "registrar" initSt = some initSt :=
  C5_redirect_skip_nonblogger envW "registrar" initSt (Or.inl rfl)

/-! ### Claim C6 -/

/-- Claim C6: in platform-managed mode, whenever parsing the fetched root
headers yields a status and a Location value, the check appends a success
line exactly when the status is 301 and the location is exactly
https-www-domain-slash, and otherwise a failure line whose flag is OR-ed
into the exit code; the fetched headers are cached in last_headers. -/
theorem C6_redirect_validation (env : Env) (s : St) (st loc : String)
    (h : redirectParse (env.curl_headers ("https://" ++ CUSTOM_DOMAIN)) = some (st, loc)) :
    redirect_check env "blogger" s =
      some { s with
        last_headers := env.curl_headers ("https://" ++ CUSTOM_DOMAIN),
        calls := s.calls ++ [Call.curl_headers ("https://" ++ CUSTOM_DOMAIN)],
        events := s.events ++ [if st == "301" && loc == "https://www." ++ CUSTOM_DOMAIN ++ "/"
          then Event.success "HTTP 301 → www" else Event.failure "HTTP 301 → www"],
        exit_code := s.exit_code |||
          (!(st == "301" && loc == "https://www." ++ CUSTOM_DOMAIN ++ "/")).toNat } := by
  simp only [redirect_check, curl_headersCall, recCall, orPS, print_status]
  rw [h]
  rfl

/-- Witness for C6: a 301 with the exact www location is reported as
success and leaves the exit code zero. -/
theorem C6_redirect_validation_witness :
    redirect_check envW "blogger" initSt =
      some { initSt with
        last_headers := ["HTTP/2 301", "Location: https://www.example.com/"],
        calls := [Call.curl_headers "https://example.com"],
        events := [Event.success "HTTP 301 → www"],
        exit_code := 0 } := by
  have h := C6_redirect_validation envW initSt "301" "https://www.example.com/" rfl
  rw [h]
  rfl

/-! ### Claim C7 -/

/-- Claim C7: for every audited hostname whose local CNAME lookup answers,
the printed propagation counts are exactly the number of public resolvers
and of authoritative nameservers whose first CNAME answer equals the local
first answer; each count is bounded by its group size; a resolver
returning an empty answer never matches; the iteration leaves the exit
code unchanged, while a missing local CNAME ORs 1 into it. -/
theorem C7_propagation_counts (env : Env) (ns : List String) (host expected : String) (s : St)
    (c0 : String) (rest : List String)
    (h : env.dig (host ++ "." ++ CUSTOM_DOMAIN) "CNAME" none = c0 :: rest)
    (hc : c0 ≠ "") :
    (audit_host env ns host expected s).events.getLast? =
      some (Event.propagation (pubCount env (host ++ "." ++ CUSTOM_DOMAIN) c0) RESOLVERS.length
        (authCount env (host ++ "." ++ CUSTOM_DOMAIN) ns c0) ns.length) ∧
    pubCount env (host ++ "." ++ CUSTOM_DOMAIN) c0 ≤ RESOLVERS.length ∧
    authCount env (host ++ "." ++ CUSTOM_DOMAIN) ns c0 ≤ ns.length ∧
    (audit_host env ns host expected s).exit_code = s.exit_code ∧
    (∀ r : String, env.dig (host ++ "." ++ CUSTOM_DOMAIN) "CNAME" (some r) = [] →
      (((env.dig (host ++ "." ++ CUSTOM_DOMAIN) "CNAME" (some r)).headD "") == c0) = false) ∧
    (∀ (env2 : Env) (s2 : St), env2.dig (host ++ "." ++ CUSTOM_DOMAIN) "CNAME" none = [] →
      (audit_host env2 ns host expected s2).exit_code = s2.exit_code ||| 1) := by
  refine ⟨?_, ?_, ?_, ?_, ?_, ?_⟩
  · simp only [audit_host, dig, recCall, recCalls, infoP, psOnly, print_status, print_warning,
      orPS]
    rw [h]
    split_ifs <;> simp [List.getLast?_concat]
  · exact List.countP_le_length _
  · exact List.countP_le_length _
  · simp only [audit_host, dig, recCall, recCalls, infoP, psOnly, print_status, print_warning,
      orPS]
    rw [h]
    split_ifs <;> rfl
  · intro r hr
    rw [hr]
    simpa using Ne.symm hc
  · intro env2 s2 h2
    simp only [audit_host, dig, recCall, recCalls, infoP, psOnly, print_status, print_warning,
      orPS]
    rw [h2]
    rfl

/-- Witness for C7: on the healthy environment the www host propagates to
all three public resolvers and both authoritative nameservers. -/
theorem C7_propagation_counts_witness :
    (audit_host envW ns0 "www" WWW_TARGET initSt).events.getLast? =
      some (Event.propagation 3 3 2 2) := by
  have h := C7_propagation_counts envW ns0 "www" WWW_TARGET initSt "ghs.google.com." [] rfl
    (by decide)
  rw [h.1]
  rfl

/-! ### Claim C8 -/

/-- Claim C8: nameserver_sanity emits a warning exactly when some returned
nameserver hostname ends with the configured domain, and otherwise a
success line; an empty NS list counts as no glue and is reported as
success; the stage never changes the accumulated exit code, and it passes
the raw NS list through.  (The hypothesis rules out answer lines carrying
a trailing newline, which the lookup tool never produces.) -/
theorem C8_nameserver_sanity_warning (env : Env) (s : St)
    (hnl : ∀ n ∈ env.dig CUSTOM_DOMAIN "NS" none,
      strEndsWith n (CUSTOM_DOMAIN ++ "\n") = false) :
    (nameserver_sanity env s).1 = env.dig CUSTOM_DOMAIN "NS" none ∧
    (nameserver_sanity env s).2.exit_code = s.exit_code ∧
    (nameserver_sanity env s).2.events = s.events ++
      [Event.info "===== Nameserver Sanity ====="] ++
      (if (env.dig CUSTOM_DOMAIN "NS" none).any (fun n => strEndsWith n CUSTOM_DOMAIN)
       then [Event.warning ("Glue-style NS detected: " ++
         toString (env.dig CUSTOM_DOMAIN "NS" none))]
       else [Event.success "Nameservers correct"]) ∧
    (env.dig CUSTOM_DOMAIN "NS" none = [] →
      (env.dig CUSTOM_DOMAIN "NS" none).any (fun n => strEndsWith n CUSTOM_DOMAIN) = false) := by
  have hany : (env.dig CUSTOM_DOMAIN "NS" none).any glueMatch =
      (env.dig CUSTOM_DOMAIN "NS" none).any (fun n => strEndsWith n CUSTOM_DOMAIN) := by
    apply any_congr_mem
    intro x hx
    simp [glueMatch, hnl x hx]
  simp only [nameserver_sanity, dig, recCall, infoP, print_warning, psOnly, print_status]
  rw [hany]
  refine ⟨?_, ?_, ?_, ?_⟩
  · split_ifs <;> rfl
  · split_ifs <;> rfl
  · split_ifs with h1 <;> simp [List.append_assoc]
  · intro he
    rw [he]
    rfl

/-- Witness for C8: the registrar nameservers of the healthy environment
are not glue-style, and the stage leaves the exit code unchanged. -/
theorem C8_nameserver_sanity_warning_witness :
    (nameserver_sanity envW initSt).2.exit_code = initSt.exit_code :=
  (C8_nameserver_sanity_warning envW initSt (by decide)).2.1

/-! ### Claim C9 -/

/-- Counterexample for C9: when the lookup answers, the self-test performs
two DNS resolutions of the known-good host, not one — line 129 evaluates
`dig(TEST_HOST)` once in the guard and once for the indexing. -/
theorem C9_single_resolution_counterexample :
    (self_test envC9 initSt).1.calls.count (Call.dig TEST_HOST "A" none) = 2 ∧
    (self_test envC9 initSt).1.calls.count (Call.dig TEST_HOST "A" none) ≠ 1 := by
  constructor
  · rfl
  · decide

/-- Claim C9 (amended): each external call site fires at most once, with
no retry loop, but the address-assignment expression of the self-test
contains two call sites for the same lookup: the self-test trace is
exactly the which-probe, then one DNS resolution of the known-good host
when the answer is empty and two when it is non-empty, then at most one
ping and one HTTPS status fetch. -/
theorem C9_selftest_call_trace (env : Env) (h : env.digPresent = true) :
    (self_test env initSt).1.calls =
      [Call.which "dig"] ++
      (if (env.dig TEST_HOST "A" none).isEmpty then [Call.dig TEST_HOST "A" none]
       else [Call.dig TEST_HOST "A" none, Call.dig TEST_HOST "A" none]) ++
      (if ((if (env.dig TEST_HOST "A" none).isEmpty then ""
            else (env.dig TEST_HOST "A" none).headD "") == "") then []
       else [Call.ping (if (env.dig TEST_HOST "A" none).isEmpty then ""
            else (env.dig TEST_HOST "A" none).headD "")] ++
         (if env.ping (if (env.dig TEST_HOST "A" none).isEmpty then ""
            else (env.dig TEST_HOST "A" none).headD "")
          then [Call.curl_status ("https://" ++ TEST_HOST)] else [])) ∧
    (self_test env initSt).1.calls.count (Call.dig TEST_HOST "A" none) =
      (if (env.dig TEST_HOST "A" none).isEmpty then 1 else 2) := by
  have hw : ∀ (n r : String) (o : Option String), (Call.which "dig" == Call.dig n r o) = false :=
    fun _ _ _ => rfl
  have hp : ∀ (a n r : String) (o : Option String), (Call.ping a == Call.dig n r o) = false :=
    fun _ _ _ _ => rfl
  have hcurl : ∀ (u n r : String) (o : Option String),
      (Call.curl_status u == Call.dig n r o) = false :=
    fun _ _ _ _ => rfl
  have hd : (Call.dig TEST_HOST "A" none == Call.dig TEST_HOST "A" none) = true := by rfl
  cases hr : env.dig TEST_HOST "A" none with
  | nil =>
    refine ⟨?_, ?_⟩ <;>
      simp [self_test, dig, pingCall, curl_statusCall, recCall, infoP, orPS, psOnly,
        print_status, h, hr, initSt, List.count_append, List.count_cons, hw, hp, hcurl, hd]
  | cons a t =>
    by_cases ha : a = ""
    · subst ha
      refine ⟨?_, ?_⟩ <;>
        simp [self_test, dig, pingCall, curl_statusCall, recCall, infoP, orPS, psOnly,
          print_status, h, hr, initSt, List.count_append, List.count_cons, hw, hp, hcurl, hd]
    · have ha2 : (a == "") = false := beq_eq_false_iff_ne.mpr ha
      by_cases hping : env.ping a = true
      · by_cases hst : env.curl_status ("https://" ++ TEST_HOST) = "200" <;>
          refine ⟨?_, ?_⟩ <;>
            simp [self_test, dig, pingCall, curl_statusCall, recCall, infoP, orPS, psOnly,
              print_status, h, hr, initSt, ha2, hping, hst, List.count_append, List.count_cons,
              hw, hp, hcurl, hd]
      · have hping2 : env.ping a = false := by simpa using hping
        refine ⟨?_, ?_⟩ <;>
          simp [self_test, dig, pingCall, curl_statusCall, recCall, infoP, orPS, psOnly,
            print_status, h, hr, initSt, ha2, hping2, List.count_append, List.count_cons,
            hw, hp, hcurl, hd]

/-- Witness for C9 (amended): on an environment whose lookup answers, the
self-test resolves the known-good host exactly twice. -/
theorem C9_selftest_call_trace_witness :
    (self_test envC9 initSt).1.calls.count (Call.dig TEST_HOST "A" none) = 2 := by
  have h := C9_selftest_call_trace envC9 rfl
  rw [h.2]
  rfl

/-! ### Claim C10 -/

/-- Counterexample for C10: a header fetch returning a one-token status
line makes line 189 raise IndexError (modelled as `none`): redirect_check
is not total over its input headers. -/
theorem C10_parse_crash_counterexample :
    redirect_check envC10 "blogger" initSt = none := by rfl

/-- Claim C10 (amended): in platform-managed mode redirect_check returns a
value exactly when the fetched headers are empty or their first line has
at least two whitespace-separated tokens, and the first Location-prefixed
line (if any) also has at least two tokens; otherwise the indexing raises
IndexError (a first line with fewer than two tokens, or a bare Location
line with no value). -/
theorem C10_parse_totality_characterization (env : Env) (s : St) :
    (redirect_check env "blogger" s).isSome =
      (statusLineOk (env.curl_headers ("https://" ++ CUSTOM_DOMAIN)) &&
       locationLineOk (env.curl_headers ("https://" ++ CUSTOM_DOMAIN))) := by
  simp only [redirect_check, curl_headersCall, recCall]
  rw [← parseStatus_isSome, ← parseLocation_isSome, ← redirectParse_isSome]
  cases hp : redirectParse (env.curl_headers ("https://" ++ CUSTOM_DOMAIN)) with
  | none => simp
  | some p =>
    cases p
    simp

end BlogCheck
